import Mathlib

/-!
Shallow embedding of the storefront client's cart-synchronization and
product-filtering view model (the top-level app controller `App`, the cart
panel `ShoppingCart`, and the header `Header`).

Modelling conventions:
* The remote `cartItems` collection is a `List CartItem` (the "store").
  A mutating call either succeeds (`ok = true`), in which case its effect is
  applied to the store, or rejects (`ok = false`), in which case the store is
  unchanged and the surrounding `catch` block logs the error.
* Each operation also yields the list of `RemoteCall`s it issued, in order.
  `RemoteCall.reload` stands for the cart-reload request (`loadCartItems` /
  `onUpdateCart`) that a successful write triggers.
* JS numbers carrying prices/ratings are modelled as `ℚ`; quantities as `ℤ`
  (the UI passes `item.quantity ± 1`, which can reach 0); ISO timestamp
  strings (`new Date().toISOString()`) are opaque `String` parameters.
* `parseFloat` is modelled including its NaN and Infinity results via
  `JSNumber`; JS comparisons with NaN are false.
* The `Record<string, Product>` object is modelled as an association list
  where a later `acc[k] = v` assignment shadows earlier ones.
* `blink.db.cartItems.list({where: {userId}, orderBy: ...})` is modelled as a
  filter of the store by `userId`; the `orderBy` option only fixes the
  presentation order chosen by the external collection client and plays no
  role in the properties below.
-/

namespace AmazonClone

/-- Product record, from the `Product` interface in the types module. -/
structure Product where
  id : String
  title : String
  description : String
  price : ℚ
  originalPrice : Option ℚ
  category : String
  brand : String
  imageUrl : String
  images : List String
  rating : ℚ
  reviewCount : Int
  inStock : Bool
  stockQuantity : Int
  features : List String
  specifications : List (String × String)
  createdAt : String
  updatedAt : String
deriving DecidableEq

/-- Cart line record, from the `CartItem` interface in the types module. -/
structure CartItem where
  id : String
  userId : String
  productId : String
  quantity : Int
  createdAt : String
  updatedAt : String
  product : Option Product := none
deriving DecidableEq

/-- Category record, from the `Category` interface in the types module. -/
structure Category where
  id : String
  name : String
  slug : String
  description : String
  imageUrl : String
  parentId : Option String := none
  createdAt : String
deriving DecidableEq

/-- Authenticated user, from the `User` interface in the types module. -/
structure User where
  id : String
  email : String
  displayName : Option String := none
  avatar : Option String := none
deriving DecidableEq

/-- One remote call issued against the `cartItems` collection, or the
cart-reload request (`loadCartItems` / the `onUpdateCart` callback). -/
inductive RemoteCall where
  | create (item : CartItem)
  | update (id : String) (quantity : Int) (updatedAt : String)
  | delete (id : String)
  | reload
deriving DecidableEq

/-- Effect of a successful `blink.db.cartItems.update(id, {quantity, updatedAt})`
on the remote collection: merge the given fields into every record keyed by
`id` (ids are unique in practice; merging is per-record). -/
def applyUpdate (store : List CartItem) (id : String) (quantity : Int)
    (updatedAt : String) : List CartItem :=
  store.map fun i =>
    if i.id == id then { i with quantity := quantity, updatedAt := updatedAt } else i

/-- Effect of a successful `blink.db.cartItems.delete(id)` on the remote
collection. -/
def applyDelete (store : List CartItem) (id : String) : List CartItem :=
  store.filter fun i => !(i.id == id)

/-- `loadCartItems`: `blink.db.cartItems.list({where: {userId: user.id}, ...})`,
the authoritative reload of the signed-in user's cart lines. -/
def loadCartItems (userId : String) (store : List CartItem) : List CartItem :=
  store.filter fun i => i.userId == userId

/-- The record `handleAddToCart` creates for a product not yet in the loaded
cart: `{id: freshId, userId, productId, quantity: 1, createdAt: now,
updatedAt: now}`. -/
def newCartLine (userId productId freshId now : String) : CartItem :=
  { id := freshId, userId := userId, productId := productId, quantity := 1,
    createdAt := now, updatedAt := now, product := none }

/-- `handleAddToCart(productId)` from the app controller.  `cartItems` is the
currently loaded cart list, `store` the remote collection; `freshId` stands for
the generated `cart_${Date.now()}_${random}` identifier and `now` for
`new Date().toISOString()`.  Returns the new remote store and the calls issued.
With no signed-in user the command returns after logging, issuing nothing. -/
def handleAddToCart (user : Option User) (cartItems : List CartItem)
    (store : List CartItem) (productId freshId now : String) (ok : Bool) :
    List CartItem × List RemoteCall :=
  match user with
  | none => (store, [])
  | some u =>
    match cartItems.find? (fun item => item.productId == productId) with
    | some existingItem =>
      if ok then
        (applyUpdate store existingItem.id (existingItem.quantity + 1) now,
          [.update existingItem.id (existingItem.quantity + 1) now, .reload])
      else
        (store, [.update existingItem.id (existingItem.quantity + 1) now])
    | none =>
      let newItem : CartItem := newCartLine u.id productId freshId now
      if ok then (store ++ [newItem], [.create newItem, .reload])
      else (store, [.create newItem])

/-- `removeItem(itemId)` from the cart panel: delete the line, then request a
reload — the reload request sits inside the `try`, after the awaited delete. -/
def removeItem (store : List CartItem) (itemId : String) (ok : Bool) :
    List CartItem × List RemoteCall :=
  if ok then (applyDelete store itemId, [.delete itemId, .reload])
  else (store, [.delete itemId])

/-- `updateQuantity(itemId, newQuantity)` from the cart panel: a value ≤ 0
delegates to `removeItem`; otherwise update quantity and `updatedAt`, then
request a reload (inside the `try`, after the awaited update). -/
def updateQuantity (store : List CartItem) (itemId : String) (newQuantity : Int)
    (now : String) (ok : Bool) : List CartItem × List RemoteCall :=
  if newQuantity ≤ 0 then removeItem store itemId ok
  else if ok then
    (applyUpdate store itemId newQuantity now,
      [.update itemId newQuantity now, .reload])
  else (store, [.update itemId newQuantity now])

/-- `clearCart()` loop body: delete each loaded line in sequence; `failAt`
gives the index of the first delete that rejects (`none` = all succeed).  A
rejection aborts the loop via the `catch`, so the trailing reload request is
only issued when every delete succeeded. -/
def clearCartAux : List CartItem → List CartItem → Option Nat →
    List CartItem × List RemoteCall
  | [], store, _ => (store, [.reload])
  | item :: _, store, some 0 => (store, [.delete item.id])
  | item :: rest, store, some (k + 1) =>
    let r := clearCartAux rest (applyDelete store item.id) (some k)
    (r.1, .delete item.id :: r.2)
  | item :: rest, store, none =>
    let r := clearCartAux rest (applyDelete store item.id) none
    (r.1, .delete item.id :: r.2)

/-- `clearCart()` from the cart panel. -/
def clearCart (cartItems : List CartItem) (store : List CartItem)
    (failAt : Option Nat) : List CartItem × List RemoteCall :=
  clearCartAux cartItems store failAt

/-- Last-assignment-wins lookup in the modelled `Record<string, Product>`. -/
def recordGet (m : List (String × Product)) (k : String) : Option Product :=
  (m.reverse.find? fun e => e.1 == k).map (·.2)

/-- `acc[product.id] = product` assignment in the modelled record. -/
def recordSet (m : List (String × Product)) (k : String) (v : Product) :
    List (String × Product) :=
  m ++ [(k, v)]

/-- The `products.reduce((acc, product) => {acc[product.id] = product; ...}, {})`
construction of the id→product lookup in `loadCartProducts`. -/
def buildProductMap (products : List Product) : List (String × Product) :=
  products.foldl (fun acc p => recordSet acc p.id p) []

/-- `loadCartProducts` state effect on `cartProducts`: on a successful batched
fetch the lookup is rebuilt from the results; on a rejected fetch the `catch`
logs and the lookup is left unchanged. -/
def loadCartProducts (cartProducts : List (String × Product))
    (result : Option (List Product)) : List (String × Product) :=
  match result with
  | some products => buildProductMap products
  | none => cartProducts

/-- The cart panel's `useEffect([cartItems])`: a non-empty cart list triggers
`loadCartProducts` (second component: the product ids the batched fetch
requests); an empty list does nothing at all.  Returns the new `cartProducts`
lookup and the fetch request, `none` when no fetch was triggered. -/
def cartProductsEffect (cartItems : List CartItem)
    (cartProducts : List (String × Product)) (result : Option (List Product)) :
    List (String × Product) × Option (List String) :=
  if cartItems.length > 0 then
    (loadCartProducts cartProducts result, some (cartItems.map (·.productId)))
  else (cartProducts, none)

/-- `calculateTotal()` from the cart panel: fold over the cart items, adding
`product.price * item.quantity` when the product is resolved and 0 when the
lookup misses. -/
def calculateTotal (cartItems : List CartItem)
    (cartProducts : List (String × Product)) : ℚ :=
  cartItems.foldl
    (fun total item =>
      match recordGet cartProducts item.productId with
      | some p => total + p.price * (item.quantity : ℚ)
      | none => total + 0)
    0

/-- `itemCount` from the cart panel:
`cartItems.reduce((total, item) => total + item.quantity, 0)`. -/
def itemCount (cartItems : List CartItem) : Int :=
  cartItems.foldl (fun total item => total + item.quantity) 0

/-- `cartItemCount` from the header: the same reduce, computed independently. -/
def cartItemCount (cartItems : List CartItem) : Int :=
  cartItems.foldl (fun total item => total + item.quantity) 0

/-- Result of JS `parseFloat`: NaN, a signed infinity, or a finite value. -/
inductive JSNumber where
  | nan
  | posInf
  | negInf
  | num (q : ℚ)
deriving DecidableEq

/-- JS whitespace accepted before a numeric literal (ASCII portion). -/
def jsWhitespace (c : Char) : Bool :=
  c == ' ' || c == '\t' || c == '\n' || c == '\r' || c == '\x0b' || c == '\x0c'

/-- Value of a digit run, most significant first. -/
def digitsToNat (ds : List Char) : Nat :=
  ds.foldl (fun n c => 10 * n + (c.toNat - '0'.toNat)) 0

/-- Exponent part of a JS decimal literal: `e`/`E`, optional sign, digits.
Yields 0 when no well-formed exponent follows (parseFloat then stops before
the `e`, which does not change the value). -/
def parseExponent (cs : List Char) : Int :=
  match cs with
  | e :: rest =>
    if e == 'e' || e == 'E' then
      let (esign, rest2) : Int × List Char :=
        match rest with
        | '+' :: r => (1, r)
        | '-' :: r => (-1, r)
        | _ => (1, rest)
      let eds := rest2.takeWhile Char.isDigit
      if eds.isEmpty then 0 else esign * (digitsToNat eds : Int)
    else 0
  | [] => 0

/-- JS `parseFloat`: skip leading whitespace, take an optional sign, then the
longest prefix that is `Infinity` or a decimal literal
(`digits [. digits] [exponent]` or `. digits [exponent]`); no such prefix
yields NaN.  Trailing junk is ignored. -/
def parseFloat (s : String) : JSNumber :=
  let cs := s.toList.dropWhile jsWhitespace
  let (neg, cs1) : Bool × List Char :=
    match cs with
    | '+' :: rest => (false, rest)
    | '-' :: rest => (true, rest)
    | _ => (false, cs)
  if cs1.take 8 = "Infinity".toList then
    if neg then .negInf else .posInf
  else
    let intPart := cs1.takeWhile Char.isDigit
    let cs2 := cs1.dropWhile Char.isDigit
    let (fracPart, cs3) : List Char × List Char :=
      match cs2 with
      | '.' :: rest => (rest.takeWhile Char.isDigit, rest.dropWhile Char.isDigit)
      | _ => ([], cs2)
    if intPart.isEmpty && fracPart.isEmpty then .nan
    else
      let digits : Nat := digitsToNat (intPart ++ fracPart)
      let e : Int := parseExponent cs3 - (fracPart.length : Int)
      let value : ℚ :=
        if 0 ≤ e then ((digits * 10 ^ e.toNat : Nat) : ℚ)
        else mkRat (digits : Int) (10 ^ (-e).toNat)
      .num (if neg then -value else value)

/-- JS `price >= bound` where `bound` came from `parseFloat`: any comparison
with NaN is false. -/
def jsGe (price : ℚ) (bound : JSNumber) : Bool :=
  match bound with
  | .nan => false
  | .posInf => false
  | .negInf => true
  | .num m => m ≤ price

/-- JS `price <= bound` where `bound` came from `parseFloat`. -/
def jsLe (price : ℚ) (bound : JSNumber) : Bool :=
  match bound with
  | .nan => false
  | .posInf => true
  | .negInf => false
  | .num m => price ≤ m

/-- `matchesPriceRange` from `filteredProducts`:
`(!min || price >= parseFloat(min)) && (!max || price <= parseFloat(max))`
(the only falsy string is the empty one). -/
def matchesPriceRange (price : ℚ) (minBound maxBound : String) : Bool :=
  (minBound == "" || jsGe price (parseFloat minBound)) &&
    (maxBound == "" || jsLe price (parseFloat maxBound))

/-- JS `s.includes(sub)`: substring containment. -/
def jsIncludes (s sub : String) : Bool :=
  decide (sub.toList <:+: s.toList)

/-- JS `s.toLowerCase()`, modelled as the per-character lowercasing of the
string's characters. -/
def jsToLower (s : String) : String :=
  String.mk (s.toList.map Char.toLower)

/-- `matchesSearch` from `filteredProducts`: empty query matches all, else a
case-insensitive substring match against title, brand, or description. -/
def matchesSearch (product : Product) (searchQuery : String) : Bool :=
  searchQuery == "" ||
    jsIncludes (jsToLower product.title) (jsToLower searchQuery) ||
    jsIncludes (jsToLower product.brand) (jsToLower searchQuery) ||
    jsIncludes (jsToLower product.description) (jsToLower searchQuery)

/-- The `selectedCategory.toLowerCase().replace(/[^a-z0-9]/g, '')`
normalization. -/
def categorySlug (s : String) : String :=
  String.mk ((jsToLower s).toList.filter fun c => c.isLower || c.isDigit)

/-- `matchesCategory` from `filteredProducts`: no selection or the sentinel
"All" matches all, else compare the stored category id against the prefixed
normalized slug. -/
def matchesCategory (product : Product) (selectedCategory : String) : Bool :=
  selectedCategory == "" || selectedCategory == "All" ||
    product.category == "cat_" ++ categorySlug selectedCategory

/-- The conjunction of the three filters applied by `filteredProducts` to each
product (before sorting). -/
def filteredProducts (products : List Product) (searchQuery selectedCategory
    minBound maxBound : String) : List Product :=
  products.filter fun product =>
    matchesSearch product searchQuery && matchesCategory product selectedCategory
      && matchesPriceRange product.price minBound maxBound

/-- Lower-bound admission as the amended price-range contract reads it: a
finite parsed bound is an inclusive lower bound, a bound parsing to -Infinity
admits every price, and a bound parsing to NaN or +Infinity admits none. -/
def lowerAdmits (price : ℚ) : JSNumber → Prop
  | .nan => False
  | .posInf => False
  | .negInf => True
  | .num m => m ≤ price

/-- Upper-bound admission as the amended price-range contract reads it: a
finite parsed bound is an inclusive upper bound, a bound parsing to +Infinity
admits every price, and a bound parsing to NaN or -Infinity admits none. -/
def upperAdmits (price : ℚ) : JSNumber → Prop
  | .nan => False
  | .posInf => True
  | .negInf => False
  | .num m => price ≤ m

/-- Invariant: at most one cart line per (`userId`, `productId`) pair. -/
def CartInv (store : List CartItem) : Prop :=
  store.Pairwise fun a b => ¬(a.userId = b.userId ∧ a.productId = b.productId)

/-- Two sequential add-to-cart invocations for the same product, the second
issued only after the first write and its reload completed: the loaded cart
passed to each invocation is the authoritative reload of the store it acts
on. -/
def addTwice (u : User) (store : List CartItem) (productId fid1 fid2 t1 t2 : String) :
    List CartItem :=
  let s1 := (handleAddToCart (some u) (loadCartItems u.id store) store productId fid1 t1 true).1
  (handleAddToCart (some u) (loadCartItems u.id s1) s1 productId fid2 t2 true).1

/-- A concrete product with the given id and title, all other fields at the
neutral values, used to instantiate the spec's scenarios. -/
def sampleProduct (id title : String) : Product :=
  { id := id, title := title, description := "", price := 0, originalPrice := none,
    category := "", brand := "", imageUrl := "", images := [], rating := 0,
    reviewCount := 0, inStock := true, stockQuantity := 0, features := [],
    specifications := [], createdAt := "", updatedAt := "" }

/-- A concrete cart line with the given id, product id and quantity, used to
instantiate the spec's scenarios. -/
def sampleCartItem (id productId : String) (quantity : Int) : CartItem :=
  { id := id, userId := "u1", productId := productId, quantity := quantity,
    createdAt := "t0", updatedAt := "t0", product := none }

theorem foldl_add_eq_sum {α M : Type} [AddCommMonoid M] (f : α → M) :
    ∀ (l : List α) (init : M),
      l.foldl (fun acc x => acc + f x) init = init + (l.map f).sum := by
  intro l
  induction l with
  | nil => intro init; simp
  | cons x xs ih => intro init; simp [List.foldl_cons, ih, add_assoc]

theorem calculateTotal_foldl (cartProducts : List (String × Product)) :
    ∀ (l : List CartItem) (init : ℚ),
      l.foldl
        (fun total item =>
          match recordGet cartProducts item.productId with
          | some p => total + p.price * (item.quantity : ℚ)
          | none => total + 0)
        init
      = init + (l.map fun item =>
          match recordGet cartProducts item.productId with
          | some p => p.price * (item.quantity : ℚ)
          | none => 0).sum := by
  intro l
  induction l with
  | nil => intro init; simp
  | cons x xs ih =>
    intro init
    simp only [List.foldl_cons, List.map_cons, List.sum_cons, ih]
    cases recordGet cartProducts x.productId <;> simp [add_assoc]

/-- C10: the header badge count (`cartItemCount`) and the cart panel count
(`itemCount`) are independent computations of the same value, namely the sum
of `quantity` over all cart items; neither consults the product lookup. -/
theorem itemCount_eq_cartItemCount_eq_sum (cartItems : List CartItem) :
    itemCount cartItems = cartItemCount cartItems
      ∧ itemCount cartItems = (cartItems.map fun i => i.quantity).sum := by
  constructor
  · rfl
  · simpa using foldl_add_eq_sum (fun i : CartItem => i.quantity) cartItems 0

/-- C5: invoking add-to-cart with no signed-in user returns after logging the
diagnostic: the remote store is unchanged and no remote call (create, update,
delete, or cart-list reload) is issued, whatever the loaded cart contains. -/
theorem handleAddToCart_unauthenticated (cartItems store : List CartItem)
    (productId freshId now : String) (ok : Bool) :
    handleAddToCart none cartItems store productId freshId now ok = (store, []) :=
  rfl

/-- C6: `calculateTotal()` equals the sum over cart items of
`price × quantity` for items whose product is resolved in the lookup, each
unresolved item contributing exactly zero; when every item resolves, it is
the full sum of `price × quantity`. -/
theorem calculateTotal_spec (cartItems : List CartItem)
    (cartProducts : List (String × Product)) :
    calculateTotal cartItems cartProducts
      = (cartItems.map fun item =>
          match recordGet cartProducts item.productId with
          | some p => p.price * (item.quantity : ℚ)
          | none => 0).sum
    ∧ ∀ resolved : CartItem → Product,
        (∀ i ∈ cartItems, recordGet cartProducts i.productId = some (resolved i)) →
        calculateTotal cartItems cartProducts
          = (cartItems.map fun i => (resolved i).price * (i.quantity : ℚ)).sum := by
  have hbase : calculateTotal cartItems cartProducts
      = (cartItems.map fun item =>
          match recordGet cartProducts item.productId with
          | some p => p.price * (item.quantity : ℚ)
          | none => 0).sum := by
    have h := calculateTotal_foldl cartProducts cartItems 0
    rw [zero_add] at h
    exact h
  refine ⟨hbase, fun resolved hres => ?_⟩
  rw [hbase]
  exact congrArg List.sum (List.map_congr_left fun i hi => by rw [hres i hi])

theorem calculateTotal_spec_witness :
    (∀ i ∈ [sampleCartItem "c1" "p1" 2],
        recordGet [("p1", sampleProduct "p1" "Laptop")] i.productId
          = some (sampleProduct "p1" "Laptop"))
    ∧ calculateTotal [sampleCartItem "c1" "p1" 2] [("p1", sampleProduct "p1" "Laptop")]
      = ([sampleCartItem "c1" "p1" 2].map fun i =>
          (sampleProduct "p1" "Laptop").price * (i.quantity : ℚ)).sum :=
  ⟨by decide,
    (calculateTotal_spec [sampleCartItem "c1" "p1" 2]
      [("p1", sampleProduct "p1" "Laptop")]).2
      (fun _ => sampleProduct "p1" "Laptop") (by decide)⟩

/-- C4: a quantity-update with `newQuantity ≤ 0` delegates to `removeItem`
(so after a successful delete the line is absent), an update call carrying a
non-positive quantity is never issued, and with `newQuantity ≥ 1` the stored
quantity and `updatedAt` are updated and a cart reload is requested. -/
theorem updateQuantity_floor (store : List CartItem) (itemId : String)
    (newQuantity : Int) (now : String) :
    (newQuantity ≤ 0 →
      (∀ ok, updateQuantity store itemId newQuantity now ok = removeItem store itemId ok)
      ∧ ∀ i ∈ (updateQuantity store itemId newQuantity now true).1, i.id ≠ itemId)
    ∧ (∀ (ok : Bool) (id : String) (q : Int) (t : String),
        RemoteCall.update id q t ∈ (updateQuantity store itemId newQuantity now ok).2 →
        1 ≤ q)
    ∧ (1 ≤ newQuantity →
      (updateQuantity store itemId newQuantity now true).1
        = applyUpdate store itemId newQuantity now
      ∧ RemoteCall.reload ∈ (updateQuantity store itemId newQuantity now true).2) := by
  refine ⟨fun hle => ⟨fun ok => ?_, fun i hi => ?_⟩, fun ok id q t hmem => ?_, fun hge => ?_⟩
  · simp [updateQuantity, hle]
  · have hi' : i ∈ (removeItem store itemId true).1 := by
      simpa [updateQuantity, hle] using hi
    have : ¬(i.id == itemId) = true := by
      simpa [removeItem, applyDelete, List.mem_filter] using (List.mem_filter.mp hi').2
    simpa using this
  · by_cases hle : newQuantity ≤ 0
    · cases ok <;> simp [updateQuantity, removeItem, hle] at hmem
    · cases ok <;>
        · simp [updateQuantity, removeItem, hle] at hmem
          omega
  · have hle : ¬(newQuantity ≤ 0) := by omega
    exact ⟨by simp [updateQuantity, hle], by simp [updateQuantity, hle]⟩

theorem updateQuantity_floor_witness :
    ((0 : Int) ≤ 0
      ∧ ∀ i ∈ (updateQuantity [sampleCartItem "c1" "p1" 1] "c1" 0 "t1" true).1,
          i.id ≠ "c1")
    ∧ ((1 : Int) ≤ 3
      ∧ RemoteCall.reload ∈ (updateQuantity [sampleCartItem "c1" "p1" 1] "c1" 3 "t1" true).2) :=
  ⟨⟨le_refl 0,
    ((updateQuantity_floor [sampleCartItem "c1" "p1" 1] "c1" 0 "t1").1 (by decide)).2⟩,
    ⟨by decide,
      ((updateQuantity_floor [sampleCartItem "c1" "p1" 1] "c1" 3 "t1").2.2 (by decide)).2⟩⟩

theorem clearCartAux_none_reload :
    ∀ (items store : List CartItem),
      RemoteCall.reload ∈ (clearCartAux items store none).2 := by
  intro items
  induction items with
  | nil => intro store; simp [clearCartAux]
  | cons item rest ih => intro store; simp [clearCartAux, ih]

theorem clearCartAux_fail_no_reload :
    ∀ (items : List CartItem) (store : List CartItem) (k : Nat),
      k < items.length →
      RemoteCall.reload ∉ (clearCartAux items store (some k)).2 := by
  intro items
  induction items with
  | nil => intro store k hk; simp at hk
  | cons item rest ih =>
    intro store k hk
    cases k with
    | zero => simp [clearCartAux]
    | succ k' =>
      have hk' : k' < rest.length := by simpa using hk
      simp [clearCartAux, ih (applyDelete store item.id) k' hk']

/-- C2 (amended): each mutating cart operation requests the cart reload
exactly when its remote write succeeds; a rejected write (or, for
`clearCart`, a rejected delete anywhere in the sequence) is caught and
logged, and no reload request is issued. -/
theorem mutation_reload_iff_success (store cartItems : List CartItem) (u : User)
    (itemId productId freshId now : String) (newQuantity : Int) (k : Nat) :
    (RemoteCall.reload ∈ (updateQuantity store itemId newQuantity now true).2
      ∧ RemoteCall.reload ∉ (updateQuantity store itemId newQuantity now false).2)
    ∧ (RemoteCall.reload ∈ (removeItem store itemId true).2
      ∧ RemoteCall.reload ∉ (removeItem store itemId false).2)
    ∧ (RemoteCall.reload ∈ (clearCart cartItems store none).2
      ∧ (k < cartItems.length →
          RemoteCall.reload ∉ (clearCart cartItems store (some k)).2))
    ∧ (RemoteCall.reload ∈ (handleAddToCart (some u) cartItems store productId freshId now true).2
      ∧ RemoteCall.reload ∉ (handleAddToCart (some u) cartItems store productId freshId now false).2) := by
  refine ⟨⟨?_, ?_⟩, ⟨?_, ?_⟩, ⟨?_, ?_⟩, ⟨?_, ?_⟩⟩
  · by_cases hle : newQuantity ≤ 0 <;> simp [updateQuantity, removeItem, hle]
  · by_cases hle : newQuantity ≤ 0 <;> simp [updateQuantity, removeItem, hle]
  · simp [removeItem]
  · simp [removeItem]
  · exact clearCartAux_none_reload cartItems store
  · exact fun hk => clearCartAux_fail_no_reload cartItems store k hk
  · cases hfind : cartItems.find? (fun item => item.productId == productId) <;>
      simp [handleAddToCart, hfind]
  · cases hfind : cartItems.find? (fun item => item.productId == productId) <;>
      simp [handleAddToCart, hfind]

theorem mutation_reload_iff_success_witness :
    0 < [sampleCartItem "c1" "p1" 1].length
    ∧ RemoteCall.reload ∉ (clearCart [sampleCartItem "c1" "p1" 1] [sampleCartItem "c1" "p1" 1] (some 0)).2 :=
  ⟨by decide,
    (mutation_reload_iff_success [sampleCartItem "c1" "p1" 1] [sampleCartItem "c1" "p1" 1]
      { id := "u1", email := "u1@example.com" } "c1" "p1" "f1" "t1" 1 0).2.2.1.2
      (by decide)⟩

/-- C2 (counterexample): a rejected quantity update issues its update call
but no reload request, contradicting the claim that the reload is issued even
when the write fails. -/
theorem mutation_reload_counterexample :
    (updateQuantity [] "i1" 2 "t1" false).2 = [RemoteCall.update "i1" 2 "t1"]
    ∧ RemoteCall.reload ∉ (updateQuantity [] "i1" 2 "t1" false).2 := by
  constructor
  · decide
  · decide

/-- C7 (counterexample): the claim's scenario says the query "lap" admits the
product titled "Lamp", but "lap" is not a substring of "lamp" (nor of the
empty brand or description), so the search filter rejects it. -/
theorem matchesSearch_counterexample :
    matchesSearch (sampleProduct "p2" "Lamp") "lap" = false
    ∧ ¬("lap".toList <:+: "lamp".toList) := by
  constructor
  · decide
  · decide

/-- C7 (amended): the search filter admits a product iff the query is empty
or is a case-insensitive substring of the title, brand, or description; the
query "lap" against titles "Laptop", "Lamp", "Phone" matches exactly the
first one (the substring rule rejects "Lamp"). -/
theorem matchesSearch_spec :
    (∀ (product : Product) (searchQuery : String),
      matchesSearch product searchQuery = true ↔
        (searchQuery = ""
          ∨ (jsToLower searchQuery).toList <:+: (jsToLower product.title).toList
          ∨ (jsToLower searchQuery).toList <:+: (jsToLower product.brand).toList
          ∨ (jsToLower searchQuery).toList <:+: (jsToLower product.description).toList))
    ∧ [sampleProduct "p1" "Laptop", sampleProduct "p2" "Lamp",
        sampleProduct "p3" "Phone"].filter (fun p => matchesSearch p "lap")
      = [sampleProduct "p1" "Laptop"] := by
  constructor
  · intro product searchQuery
    simp [matchesSearch, jsIncludes, Bool.or_eq_true, decide_eq_true_iff,
      beq_iff_eq, or_assoc]
  · decide

/-- C8: the category filter admits a product iff no category is selected, or
the selection is the sentinel "All", or the stored category id equals the
selection's display name lowercased, stripped of everything but lowercase
ASCII letters and digits, and prefixed with "cat_". -/
theorem matchesCategory_spec :
    (∀ (product : Product) (selectedCategory : String),
      matchesCategory product selectedCategory = true ↔
        (selectedCategory = "" ∨ selectedCategory = "All"
          ∨ product.category
              = "cat_" ++ String.mk ((jsToLower selectedCategory).toList.filter
                  fun c => c.isLower || c.isDigit)))
    ∧ matchesCategory
        { sampleProduct "p1" "Sofa" with category := "cat_homegarden" }
        "Home & Garden" = true
    ∧ matchesCategory
        { sampleProduct "p2" "Novel" with category := "cat_books" }
        "Home & Garden" = false := by
  refine ⟨fun product selectedCategory => ?_, by decide, by decide⟩
  simp [matchesCategory, categorySlug, Bool.or_eq_true, beq_iff_eq, or_assoc]

/-- C3 (counterexample): the claim says a non-empty bound string that does
not parse as a number leaves that side unbounded, so min = "x" should admit
price 10; but `parseFloat "x"` is NaN, `10 >= NaN` is false, and the filter
rejects the product. -/
theorem matchesPriceRange_counterexample :
    parseFloat "x" = JSNumber.nan ∧ matchesPriceRange 10 "x" "" = false := by
  constructor
  · decide
  · decide

/-- C3 (amended): the price filter admits a product iff, on each side, the
bound string is empty (unbounded) or the parsed bound admits the price —
inclusively for a finite parse, while a bound parsing to NaN rejects every
product on that side rather than being unbounded.  Bounds min = "20",
max = "" against prices 10, 20, 30 admit exactly 20 and 30. -/
theorem matchesPriceRange_spec (price : ℚ) (minBound maxBound : String) :
    (matchesPriceRange price minBound maxBound = true ↔
      ((minBound = "" ∨ lowerAdmits price (parseFloat minBound))
        ∧ (maxBound = "" ∨ upperAdmits price (parseFloat maxBound))))
    ∧ ([10, 20, 30] : List ℚ).filter (fun p => matchesPriceRange p "20" "")
      = [20, 30] := by
  constructor
  · rw [matchesPriceRange, Bool.and_eq_true, Bool.or_eq_true, Bool.or_eq_true]
    cases h1 : parseFloat minBound <;> cases h2 : parseFloat maxBound <;>
      simp [jsGe, jsLe, beq_iff_eq, lowerAdmits, upperAdmits]
  · decide

/-- C9 (counterexample): when the cart item list is empty the effect skips
the fetch but leaves the previous lookup in place; a lookup holding a stale
entry stays non-empty, contradicting the claim that it is left empty. -/
theorem cartProductsEffect_counterexample :
    (cartProductsEffect [] [("p1", sampleProduct "p1" "Laptop")] none).1
      = [("p1", sampleProduct "p1" "Laptop")]
    ∧ (cartProductsEffect [] [("p1", sampleProduct "p1" "Laptop")] none).1 ≠ [] := by
  constructor
  · decide
  · decide

/-- C9 (amended): a non-empty cart item list triggers the batched fetch for
exactly the items' product ids and, on success, rebuilds the lookup from the
results; an empty cart item list triggers no fetch and leaves the lookup
unchanged (retaining whatever entries it already held). -/
theorem cartProductsEffect_spec (cartItems : List CartItem)
    (cartProducts : List (String × Product)) (result : Option (List Product)) :
    (cartItems ≠ [] →
      (cartProductsEffect cartItems cartProducts result).2
        = some (cartItems.map (·.productId))
      ∧ ∀ products, result = some products →
          (cartProductsEffect cartItems cartProducts result).1
            = buildProductMap products)
    ∧ (cartItems = [] →
        cartProductsEffect cartItems cartProducts result = (cartProducts, none)) := by
  constructor
  · intro hne
    cases cartItems with
    | nil => exact absurd rfl hne
    | cons x xs =>
      refine ⟨by simp [cartProductsEffect], fun products hres => ?_⟩
      simp [cartProductsEffect, loadCartProducts, hres]
  · intro he
    subst he
    simp [cartProductsEffect]

theorem cartProductsEffect_spec_witness :
    ([sampleCartItem "c1" "p1" 1] ≠ []
      ∧ (cartProductsEffect [sampleCartItem "c1" "p1" 1] [] (some [sampleProduct "p1" "Laptop"])).1
          = buildProductMap [sampleProduct "p1" "Laptop"])
    ∧ (([] : List CartItem) = []
      ∧ cartProductsEffect [] [("p1", sampleProduct "p1" "Laptop")] none
          = ([("p1", sampleProduct "p1" "Laptop")], none)) :=
  ⟨⟨by decide,
    ((cartProductsEffect_spec [sampleCartItem "c1" "p1" 1] []
        (some [sampleProduct "p1" "Laptop"])).1 (by decide)).2
      [sampleProduct "p1" "Laptop"] rfl⟩,
    ⟨rfl,
      (cartProductsEffect_spec [] [("p1", sampleProduct "p1" "Laptop")] none).2 rfl⟩⟩

theorem CartInv_applyUpdate (store : List CartItem) (id : String) (q : Int)
    (t : String) (hinv : CartInv store) : CartInv (applyUpdate store id q t) := by
  have hu : ∀ x : CartItem,
      ((if x.id == id then { x with quantity := q, updatedAt := t } else x) : CartItem).userId
        = x.userId := fun x => by split <;> rfl
  have hp : ∀ x : CartItem,
      ((if x.id == id then { x with quantity := q, updatedAt := t } else x) : CartItem).productId
        = x.productId := fun x => by split <;> rfl
  unfold CartInv applyUpdate
  rw [List.pairwise_map]
  exact hinv.imp fun hab hcon =>
    hab ⟨((hu _).symm.trans hcon.1).trans (hu _), ((hp _).symm.trans hcon.2).trans (hp _)⟩

theorem CartInv_append_new (store : List CartItem) (x : CartItem)
    (hinv : CartInv store)
    (hnew : ∀ a ∈ store, ¬(a.userId = x.userId ∧ a.productId = x.productId)) :
    CartInv (store ++ [x]) := by
  unfold CartInv
  refine List.pairwise_append.mpr ⟨hinv, List.pairwise_singleton _ _, ?_⟩
  intro a ha b hb
  have hb' : b = x := by simpa using hb
  subst hb'
  exact hnew a ha

theorem addToCart_preserves_CartInv (u : User) (store : List CartItem)
    (productId fid t : String) (hinv : CartInv store) :
    CartInv (handleAddToCart (some u) (loadCartItems u.id store) store productId fid t true).1 := by
  cases hfind : (loadCartItems u.id store).find? (fun item => item.productId == productId) with
  | none =>
    have h1 : (handleAddToCart (some u) (loadCartItems u.id store) store productId fid t true).1
        = store ++ [newCartLine u.id productId fid t] := by
      simp [handleAddToCart, hfind]
    rw [h1]
    refine CartInv_append_new _ _ hinv ?_
    intro a ha hcon
    have hmem : a ∈ loadCartItems u.id store := by
      simp only [loadCartItems, List.mem_filter]
      exact ⟨ha, by simpa [newCartLine] using hcon.1⟩
    have hnot := List.find?_eq_none.mp hfind a hmem
    have hap : a.productId = productId := by simpa [newCartLine] using hcon.2
    simp [hap] at hnot
  | some item =>
    have h1 : (handleAddToCart (some u) (loadCartItems u.id store) store productId fid t true).1
        = applyUpdate store item.id (item.quantity + 1) t := by
      simp [handleAddToCart, hfind]
    rw [h1]
    exact CartInv_applyUpdate store item.id (item.quantity + 1) t hinv

/-- C1: starting with no cart line for the product, two sequential add-to-cart
invocations (each write and reload completing before the next) leave exactly
one cart line for that product, with quantity 2, created at the first add and
last updated at the second; and add-to-cart preserves the at-most-one-line-per
(`userId`, `productId`) invariant, updating the existing row when a line is
loaded and creating a quantity-1 row otherwise. -/
theorem handleAddToCart_idempotent (u : User) (store : List CartItem)
    (productId fid1 fid2 t1 t2 : String)
    (hno : ∀ i ∈ store, ¬(i.userId = u.id ∧ i.productId = productId))
    (hfresh : ∀ i ∈ store, i.id ≠ fid1)
    (hinv : CartInv store) :
    ((addTwice u store productId fid1 fid2 t1 t2).filter
        fun i => i.userId == u.id && i.productId == productId)
      = [{ newCartLine u.id productId fid1 t1 with quantity := 2, updatedAt := t2 }]
    ∧ CartInv (addTwice u store productId fid1 fid2 t1 t2)
    ∧ (∀ (store' : List CartItem) (q fid t : String), CartInv store' →
        CartInv (handleAddToCart (some u) (loadCartItems u.id store') store' q fid t true).1) := by
  have hfind1 : (loadCartItems u.id store).find? (fun item => item.productId == productId)
      = none := by
    rw [List.find?_eq_none]
    intro x hx
    simp only [loadCartItems, List.mem_filter, beq_iff_eq] at hx
    simp only [beq_iff_eq]
    exact fun hp => hno x hx.1 ⟨hx.2, hp⟩
  have hs1 : (handleAddToCart (some u) (loadCartItems u.id store) store productId fid1 t1 true).1
      = store ++ [newCartLine u.id productId fid1 t1] := by
    simp [handleAddToCart, hfind1]
  have hload1 : loadCartItems u.id (store ++ [newCartLine u.id productId fid1 t1])
      = loadCartItems u.id store ++ [newCartLine u.id productId fid1 t1] := by
    simp [loadCartItems, List.filter_append, newCartLine]
  have hfind2 : (loadCartItems u.id store ++ [newCartLine u.id productId fid1 t1]).find?
        (fun item => item.productId == productId)
      = some (newCartLine u.id productId fid1 t1) := by
    rw [List.find?_append, hfind1]
    simp [newCartLine]
  have hmap : store.map (fun i => if i.id == fid1 then
      { i with quantity := (1 : Int) + 1, updatedAt := t2 } else i) = store := by
    have := List.map_congr_left (l := store)
      (f := fun i : CartItem => if i.id == fid1 then
        { i with quantity := (1 : Int) + 1, updatedAt := t2 } else i) (g := id)
      (fun i hi => by simp [hfresh i hi])
    simpa using this
  have hs2 : addTwice u store productId fid1 fid2 t1 t2
      = store ++ [{ newCartLine u.id productId fid1 t1 with quantity := 2, updatedAt := t2 }] := by
    simp only [addTwice]
    rw [hs1, hload1]
    simp only [handleAddToCart]
    rw [hfind2]
    simp only [newCartLine, applyUpdate, List.map_append, List.map_cons, List.map_nil]
    rw [hmap]
    simp
  refine ⟨?_, ?_, fun store' q fid t h => addToCart_preserves_CartInv u store' q fid t h⟩
  · rw [hs2, List.filter_append]
    have hnil : store.filter (fun i => i.userId == u.id && i.productId == productId) = [] := by
      rw [List.filter_eq_nil_iff]
      intro a ha
      simp only [Bool.and_eq_true, beq_iff_eq, not_and]
      exact fun hu hp => hno a ha ⟨hu, hp⟩
    rw [hnil]
    simp [newCartLine]
  · have hinv1 : CartInv (handleAddToCart (some u) (loadCartItems u.id store) store
        productId fid1 t1 true).1 :=
      addToCart_preserves_CartInv u store productId fid1 t1 hinv
    have hinv2 := addToCart_preserves_CartInv u
      (handleAddToCart (some u) (loadCartItems u.id store) store productId fid1 t1 true).1
      productId fid2 t2 hinv1
    exact hinv2

theorem handleAddToCart_idempotent_witness :
    (∀ i ∈ ([] : List CartItem), ¬(i.userId = "u1" ∧ i.productId = "p1"))
    ∧ (∀ i ∈ ([] : List CartItem), i.id ≠ "cart_a")
    ∧ CartInv []
    ∧ ((addTwice { id := "u1", email := "u1@example.com" } [] "p1" "cart_a" "cart_b" "t1" "t2").filter
        fun i => i.userId == "u1" && i.productId == "p1")
      = [{ newCartLine "u1" "p1" "cart_a" "t1" with quantity := 2, updatedAt := "t2" }] :=
  ⟨fun i hi => absurd hi (List.not_mem_nil i),
    fun i hi => absurd hi (List.not_mem_nil i),
    List.Pairwise.nil,
    (handleAddToCart_idempotent { id := "u1", email := "u1@example.com" } []
      "p1" "cart_a" "cart_b" "t1" "t2"
      (fun i hi => absurd hi (List.not_mem_nil i))
      (fun i hi => absurd hi (List.not_mem_nil i))
      List.Pairwise.nil).1⟩
end AmazonClone
